import Mathlib

/-!
Verification of the AVR TWI (I2C) master driver `src/TWIlib.c`.

The driver's mutable globals (`TWIInfo`, the two transfer buffers with their
length/index variables, and the `TWDR` data register) are collected into one
state record `TWIState`.  The hardware-control macros (`TWISendStart`,
`TWISendStop`, `TWISendTransmit`, `TWISendACK`, `TWISendNACK`) each write the
control register to arm one bus action; we record which action was armed last
in the field `lastBusAction`.  The interrupt service routine `ISR(TWI_vect)`
becomes the pure step function `ISR : Nat → TWIState → TWIState` taking the
status code that the hardware reported.
-/

namespace AVRTWI

/-- Modelled from the spec: transmit buffer capacity `TXMAXBUFLEN`, defined in
`TWIlib.h` which is not under `src/`; the spec describes a fixed capacity, the
header's value is 20. -/
def TXMAXBUFLEN : Nat := 20

/-- Modelled from the spec: receive buffer capacity `RXMAXBUFLEN`, defined in
`TWIlib.h` which is not under `src/`. -/
def RXMAXBUFLEN : Nat := 20

/-- Modelled from the spec: AVR TWI status code, start condition transmitted
(`TWIlib.h`, standard AVR value 0x08). -/
def TWI_START_SENT : Nat := 0x08

/-- Modelled from the spec: repeated start transmitted (0x10). -/
def TWI_REP_START_SENT : Nat := 0x10

/-- Modelled from the spec: SLA+W transmitted, ACK received (0x18). -/
def TWI_MT_SLAW_ACK : Nat := 0x18

/-- Modelled from the spec: SLA+W transmitted, NACK received (0x20). -/
def TWI_MT_SLAW_NACK : Nat := 0x20

/-- Modelled from the spec: data transmitted, ACK received (0x28). -/
def TWI_MT_DATA_ACK : Nat := 0x28

/-- Modelled from the spec: data transmitted, NACK received (0x30). -/
def TWI_MT_DATA_NACK : Nat := 0x30

/-- Modelled from the spec: arbitration lost (0x38). -/
def TWI_LOST_ARBIT : Nat := 0x38

/-- Modelled from the spec: SLA+R transmitted, ACK received (0x40). -/
def TWI_MR_SLAR_ACK : Nat := 0x40

/-- Modelled from the spec: SLA+R transmitted, NACK received (0x48). -/
def TWI_MR_SLAR_NACK : Nat := 0x48

/-- Modelled from the spec: data received, ACK returned (0x50). -/
def TWI_MR_DATA_ACK : Nat := 0x50

/-- Modelled from the spec: data received, NACK returned (0x58). -/
def TWI_MR_DATA_NACK : Nat := 0x58

/-- Modelled from the spec: no relevant state information marker (0xF8). -/
def TWI_NO_RELEVANT_INFO : Nat := 0xF8

/-- Modelled from the spec: illegal start or stop condition (0x00). -/
def TWI_ILLEGAL_START_STOP : Nat := 0x00

/-- Modelled from the spec: the `TWIMode` enumeration of `TWIlib.h`
(slave modes are unimplemented in the source and omitted). -/
inductive TWIMode where
  | Ready
  | Initializing
  | RepeatedStartSent
  | MasterTransmitter
  | MasterReceiver
  deriving DecidableEq, Repr

/-- Modelled from the spec: the bus-control capability.  Each of the source's
`TWISend...` macros arms the hardware for exactly one of these actions by a
control-register write; we record which one was armed. -/
inductive BusAction where
  | sendStart
  | sendStop
  | sendTransmit
  | sendACK
  | sendNACK
  deriving DecidableEq, Repr

/-- The global `TWIInfoStruct TWIInfo` of the source: transaction mode, last
error code and the repeated-start request flag (a byte in C, tested against
zero). -/
structure TWIInfoStruct where
  mode : TWIMode
  errorCode : Nat
  repStart : Nat
  deriving DecidableEq, Repr

/-- All mutable driver state of `TWIlib.c` in one record: the `TWIInfo`
struct, the two buffers with their length and index globals, the `TWDR` data
register, and the last bus action armed via the control register. -/
structure TWIState where
  TWIInfo : TWIInfoStruct
  TWITransmitBuffer : List Nat
  TWIReceiveBuffer : List Nat
  TXBuffIndex : Nat
  TXBuffLen : Nat
  RXBuffIndex : Nat
  RXBuffLen : Nat
  TWDR : Nat
  lastBusAction : Option BusAction
  deriving DecidableEq, Repr

/-- The state of the C globals before `main` runs: everything
zero-initialized, buffers at their fixed capacities. -/
def initialState : TWIState :=
  { TWIInfo := { mode := TWIMode.Ready, errorCode := 0, repStart := 0 }
    TWITransmitBuffer := List.replicate TXMAXBUFLEN 0
    TWIReceiveBuffer := List.replicate RXMAXBUFLEN 0
    TXBuffIndex := 0
    TXBuffLen := 0
    RXBuffIndex := 0
    RXBuffLen := 0
    TWDR := 0
    lastBusAction := none }

/-- `TWIInit`: resets the transaction context.  The clock prescaler and bit
rate register writes touch only hardware timing registers outside this model. -/
def TWIInit (s : TWIState) : TWIState :=
  { s with TWIInfo := { mode := TWIMode.Ready, errorCode := 0xFF, repStart := 0 } }

/-- `isTWIReady`: 1 iff the mode is `Ready` or `RepeatedStartSent`. -/
def isTWIReady (s : TWIState) : Bool :=
  if s.TWIInfo.mode = TWIMode.Ready ∨ s.TWIInfo.mode = TWIMode.RepeatedStartSent then
    true
  else
    false

/-- The copy loop of `TWITransmitData`: `for i in 0..dataLen-1:
TWITransmitBuffer[i] = data[i]`.  Writes hit distinct indices, so performing
the write at index `n-1` last gives the same array. -/
def copyToTX (dst src : List Nat) : Nat → List Nat
  | 0 => dst
  | n + 1 => (copyToTX dst src n).set n (src.getD n 0)

/-- `TWITransmitData`: begin a master transmission of `dataLen` bytes.
Returns the C result code paired with the post-call state. -/
def TWITransmitData (TXdata : List Nat) (dataLen repStart : Nat) (s : TWIState) :
    Nat × TWIState :=
  if dataLen ≤ TXMAXBUFLEN then
    if isTWIReady s then
      let buf := copyToTX s.TWITransmitBuffer TXdata dataLen
      let s1 : TWIState :=
        { s with
          TWIInfo := { s.TWIInfo with repStart := repStart }
          TWITransmitBuffer := buf
          TXBuffLen := dataLen
          TXBuffIndex := 0 }
      if s1.TWIInfo.mode = TWIMode.RepeatedStartSent then
        (0, { s1 with
              TWIInfo := { s1.TWIInfo with mode := TWIMode.Initializing }
              TWDR := buf.getD 0 0
              TXBuffIndex := 1
              lastBusAction := some BusAction.sendTransmit })
      else
        (0, { s1 with
              TWIInfo := { s1.TWIInfo with mode := TWIMode.Initializing }
              lastBusAction := some BusAction.sendStart })
    else
      (2, s)
  else
    (1, s)

/-- The address byte synthesized by `TWIReadData`:
`(TWIaddr << 1) | 0x01`, truncated to a byte by the `uint8_t` array cell. -/
def readAddrByte (TWIaddr : Nat) : Nat :=
  ((TWIaddr <<< 1) ||| 1) % 256

/-- `TWIReadData`: begin a master read of `bytesToRead` bytes from the slave
at 7-bit address `TWIaddr`, by transmitting the one-byte address frame with
the read bit set through `TWITransmitData`. -/
def TWIReadData (TWIaddr bytesToRead repStart : Nat) (s : TWIState) :
    Nat × TWIState :=
  if bytesToRead ≤ RXMAXBUFLEN then
    let s1 : TWIState := { s with RXBuffIndex := 0, RXBuffLen := bytesToRead }
    let r := TWITransmitData [readAddrByte TWIaddr] 1 repStart s1
    if r.1 = 2 then (2, r.2) else (0, r.2)
  else
    (1, s)

/-- The shared master-transmitter block of the ISR (reached from
`TWI_MT_SLAW_ACK` by fallthrough and directly from `TWI_START_SENT` and
`TWI_MT_DATA_ACK`): load the next byte if any remain, otherwise finish with a
repeated start or a stop. -/
def handleMT (s : TWIState) : TWIState :=
  if s.TXBuffIndex < s.TXBuffLen then
    { s with
      TWDR := s.TWITransmitBuffer.getD s.TXBuffIndex 0
      TXBuffIndex := s.TXBuffIndex + 1
      TWIInfo := { s.TWIInfo with errorCode := TWI_NO_RELEVANT_INFO }
      lastBusAction := some BusAction.sendTransmit }
  else if s.TWIInfo.repStart ≠ 0 then
    { s with
      TWIInfo := { s.TWIInfo with errorCode := 0xFF }
      lastBusAction := some BusAction.sendStart }
  else
    { s with
      TWIInfo := { s.TWIInfo with mode := TWIMode.Ready, errorCode := 0xFF }
      lastBusAction := some BusAction.sendStop }

/-- The shared master-receiver reply decision of the ISR: ACK while more than
one byte remains to be read, NACK for the last byte.  The C comparison
`RXBuffIndex < RXBuffLen - 1` is on nonnegative values, so truncated `Nat`
subtraction agrees with the C arithmetic. -/
def handleMRreply (s : TWIState) : TWIState :=
  if s.RXBuffIndex < s.RXBuffLen - 1 then
    { s with
      TWIInfo := { s.TWIInfo with errorCode := TWI_NO_RELEVANT_INFO }
      lastBusAction := some BusAction.sendACK }
  else
    { s with
      TWIInfo := { s.TWIInfo with errorCode := TWI_NO_RELEVANT_INFO }
      lastBusAction := some BusAction.sendNACK }

/-- The shared NACK / arbitration-lost block of the ISR: record the status as
the error code, then chain a repeated start or finish with a stop. -/
def handleTermError (status : Nat) (s : TWIState) : TWIState :=
  if s.TWIInfo.repStart ≠ 0 then
    { s with
      TWIInfo := { s.TWIInfo with errorCode := status }
      lastBusAction := some BusAction.sendStart }
  else
    { s with
      TWIInfo := { s.TWIInfo with mode := TWIMode.Ready, errorCode := status }
      lastBusAction := some BusAction.sendStop }

/-- `ISR(TWI_vect)`: one invocation of the interrupt handler on the given
status code.  Cases follow the source switch, including the fallthrough from
`TWI_MT_SLAW_ACK` into the shared block and the do-nothing default. -/
def ISR (status : Nat) (s : TWIState) : TWIState :=
  if status = TWI_MT_SLAW_ACK then
    handleMT { s with TWIInfo := { s.TWIInfo with mode := TWIMode.MasterTransmitter } }
  else if status = TWI_START_SENT ∨ status = TWI_MT_DATA_ACK then
    handleMT s
  else if status = TWI_MR_SLAR_ACK then
    handleMRreply { s with TWIInfo := { s.TWIInfo with mode := TWIMode.MasterReceiver } }
  else if status = TWI_MR_DATA_ACK then
    handleMRreply
      { s with
        TWIReceiveBuffer := s.TWIReceiveBuffer.set s.RXBuffIndex s.TWDR
        RXBuffIndex := s.RXBuffIndex + 1 }
  else if status = TWI_MR_DATA_NACK then
    let s1 : TWIState :=
      { s with
        TWIReceiveBuffer := s.TWIReceiveBuffer.set s.RXBuffIndex s.TWDR
        RXBuffIndex := s.RXBuffIndex + 1 }
    if s1.TWIInfo.repStart ≠ 0 then
      { s1 with
        TWIInfo := { s1.TWIInfo with errorCode := 0xFF }
        lastBusAction := some BusAction.sendStart }
    else
      { s1 with
        TWIInfo := { s1.TWIInfo with mode := TWIMode.Ready, errorCode := 0xFF }
        lastBusAction := some BusAction.sendStop }
  else if status = TWI_MR_SLAR_NACK ∨ status = TWI_MT_SLAW_NACK ∨
      status = TWI_MT_DATA_NACK ∨ status = TWI_LOST_ARBIT then
    handleTermError status s
  else if status = TWI_REP_START_SENT then
    { s with TWIInfo := { s.TWIInfo with mode := TWIMode.RepeatedStartSent } }
  else if status = TWI_NO_RELEVANT_INFO then
    s
  else if status = TWI_ILLEGAL_START_STOP then
    { s with
      TWIInfo := { s.TWIInfo with errorCode := TWI_ILLEGAL_START_STOP, mode := TWIMode.Ready }
      lastBusAction := some BusAction.sendStop }
  else
    s

/-! ### Small list lemmas -/

theorem getD_set_self :
    ∀ (l : List Nat) (i v : Nat), i < l.length → (l.set i v).getD i 0 = v
  | _ :: _, 0, _, _ => rfl
  | _ :: l, i + 1, v, h => getD_set_self l i v (Nat.lt_of_succ_lt_succ h)

theorem getD_set_ne :
    ∀ (l : List Nat) (i j v : Nat), i ≠ j → (l.set i v).getD j 0 = l.getD j 0
  | [], _, _, _, _ => by simp
  | _ :: _, 0, 0, _, h => absurd rfl h
  | _ :: _, 0, _ + 1, _, _ => rfl
  | _ :: _, _ + 1, 0, _, _ => rfl
  | _ :: l, i + 1, j + 1, v, h =>
    getD_set_ne l i j v (fun e => h (by rw [e]))

theorem length_copyToTX (dst src : List Nat) :
    ∀ n, (copyToTX dst src n).length = dst.length
  | 0 => rfl
  | n + 1 => by rw [copyToTX, List.length_set, length_copyToTX dst src n]

theorem getD_copyToTX (dst src : List Nat) :
    ∀ n i, i < n → i < dst.length → (copyToTX dst src n).getD i 0 = src.getD i 0
  | 0, i, hi, _ => absurd hi (Nat.not_lt_zero i)
  | n + 1, i, hi, hlen => by
    rw [copyToTX]
    rcases Nat.lt_succ_iff_lt_or_eq.1 hi with h | h
    · rw [getD_set_ne _ _ _ _ (Nat.ne_of_gt h)]
      exact getD_copyToTX dst src n i h hlen
    · subst h
      exact getD_set_self _ _ _ (by rw [length_copyToTX]; exact hlen)

/-! ### Dispatch lemmas: which ISR case each status code selects -/

theorem ISR_mt_slaw_ack (s : TWIState) :
    ISR TWI_MT_SLAW_ACK s =
      handleMT { s with TWIInfo := { s.TWIInfo with mode := TWIMode.MasterTransmitter } } := rfl

theorem ISR_start_sent (s : TWIState) :
    ISR TWI_START_SENT s = handleMT s := rfl

theorem ISR_mt_data_ack (s : TWIState) :
    ISR TWI_MT_DATA_ACK s = handleMT s := rfl

theorem ISR_mr_slar_ack (s : TWIState) :
    ISR TWI_MR_SLAR_ACK s =
      handleMRreply { s with TWIInfo := { s.TWIInfo with mode := TWIMode.MasterReceiver } } := rfl

theorem ISR_mr_data_ack (s : TWIState) :
    ISR TWI_MR_DATA_ACK s =
      handleMRreply
        { s with
          TWIReceiveBuffer := s.TWIReceiveBuffer.set s.RXBuffIndex s.TWDR
          RXBuffIndex := s.RXBuffIndex + 1 } := rfl

theorem ISR_mr_data_nack (s : TWIState) :
    ISR TWI_MR_DATA_NACK s =
      (if s.TWIInfo.repStart ≠ 0 then
        { s with
          TWIReceiveBuffer := s.TWIReceiveBuffer.set s.RXBuffIndex s.TWDR
          RXBuffIndex := s.RXBuffIndex + 1
          TWIInfo := { s.TWIInfo with errorCode := 0xFF }
          lastBusAction := some BusAction.sendStart }
      else
        { s with
          TWIReceiveBuffer := s.TWIReceiveBuffer.set s.RXBuffIndex s.TWDR
          RXBuffIndex := s.RXBuffIndex + 1
          TWIInfo := { s.TWIInfo with mode := TWIMode.Ready, errorCode := 0xFF }
          lastBusAction := some BusAction.sendStop }) := rfl

theorem ISR_mr_slar_nack (s : TWIState) :
    ISR TWI_MR_SLAR_NACK s = handleTermError TWI_MR_SLAR_NACK s := rfl

theorem ISR_mt_slaw_nack (s : TWIState) :
    ISR TWI_MT_SLAW_NACK s = handleTermError TWI_MT_SLAW_NACK s := rfl

theorem ISR_mt_data_nack (s : TWIState) :
    ISR TWI_MT_DATA_NACK s = handleTermError TWI_MT_DATA_NACK s := rfl

theorem ISR_lost_arbit (s : TWIState) :
    ISR TWI_LOST_ARBIT s = handleTermError TWI_LOST_ARBIT s := rfl

theorem ISR_rep_start_sent (s : TWIState) :
    ISR TWI_REP_START_SENT s =
      { s with TWIInfo := { s.TWIInfo with mode := TWIMode.RepeatedStartSent } } := rfl

theorem ISR_no_relevant_info (s : TWIState) :
    ISR TWI_NO_RELEVANT_INFO s = s := rfl

theorem ISR_illegal_start_stop (s : TWIState) :
    ISR TWI_ILLEGAL_START_STOP s =
      { s with
        TWIInfo := { s.TWIInfo with errorCode := TWI_ILLEGAL_START_STOP, mode := TWIMode.Ready }
        lastBusAction := some BusAction.sendStop } := rfl

/-! ### Branch lemmas for the shared handler blocks -/

theorem handleMT_load (s : TWIState) (h : s.TXBuffIndex < s.TXBuffLen) :
    handleMT s =
      { s with
        TWDR := s.TWITransmitBuffer.getD s.TXBuffIndex 0
        TXBuffIndex := s.TXBuffIndex + 1
        TWIInfo := { s.TWIInfo with errorCode := TWI_NO_RELEVANT_INFO }
        lastBusAction := some BusAction.sendTransmit } := by
  simp [handleMT, h]

theorem handleMT_chain (s : TWIState) (h1 : ¬ s.TXBuffIndex < s.TXBuffLen)
    (h2 : s.TWIInfo.repStart ≠ 0) :
    handleMT s =
      { s with
        TWIInfo := { s.TWIInfo with errorCode := 0xFF }
        lastBusAction := some BusAction.sendStart } := by
  simp [handleMT, h1, h2]

theorem handleMT_finish (s : TWIState) (h1 : ¬ s.TXBuffIndex < s.TXBuffLen)
    (h2 : s.TWIInfo.repStart = 0) :
    handleMT s =
      { s with
        TWIInfo := { s.TWIInfo with mode := TWIMode.Ready, errorCode := 0xFF }
        lastBusAction := some BusAction.sendStop } := by
  simp [handleMT, h1, h2]

/-- Successful `TWITransmitData` from `Ready` mode: stage the buffer and
request a start condition. -/
theorem transmit_from_ready (d : List Nat) (len rep : Nat) (s : TWIState)
    (hm : s.TWIInfo.mode = TWIMode.Ready) (hcap : len ≤ TXMAXBUFLEN) :
    TWITransmitData d len rep s =
      (0, { s with
            TWIInfo := { s.TWIInfo with mode := TWIMode.Initializing, repStart := rep }
            TWITransmitBuffer := copyToTX s.TWITransmitBuffer d len
            TXBuffLen := len
            TXBuffIndex := 0
            lastBusAction := some BusAction.sendStart }) := by
  simp [TWITransmitData, isTWIReady, hm, hcap]

/-- Successful `TWITransmitData` from `RepeatedStartSent` mode: stage the
buffer, load its first byte and request transmit (no new start condition). -/
theorem transmit_from_repstart (d : List Nat) (len rep : Nat) (s : TWIState)
    (hm : s.TWIInfo.mode = TWIMode.RepeatedStartSent) (hcap : len ≤ TXMAXBUFLEN) :
    TWITransmitData d len rep s =
      (0, { s with
            TWIInfo := { s.TWIInfo with mode := TWIMode.Initializing, repStart := rep }
            TWITransmitBuffer := copyToTX s.TWITransmitBuffer d len
            TXBuffLen := len
            TXBuffIndex := 1
            TWDR := (copyToTX s.TWITransmitBuffer d len).getD 0 0
            lastBusAction := some BusAction.sendTransmit }) := by
  simp [TWITransmitData, isTWIReady, hm, hcap]

/-- A concrete in-flight state: a one-byte write has just been started from a
freshly initialized driver, so the mode is `Initializing` and the bus is not
ready. -/
def busyState : TWIState := (TWITransmitData [16] 1 0 (TWIInit initialState)).2

/-! ### C1 -/

/-- C1: the claim states that a `TWIReadData` call made while the interface
is busy performs no mutation.  In fact `TWIReadData` resets `RXBuffIndex` and
assigns `RXBuffLen` before it delegates to `TWITransmitData` and discovers the
bus is busy: from a busy state whose `RXBuffLen` is 0, reading 3 bytes
returns the busy code 2 yet leaves a changed state. -/
theorem C1_counterexample :
    isTWIReady busyState = false ∧
    (TWIReadData 7 3 0 busyState).1 = 2 ∧
    ¬ (TWIReadData 7 3 0 busyState).2 = busyState := by
  decide

/-- C1 (amended): while `isTWIReady` is false, a `TWITransmitData` call whose
length fits the buffer returns 2 and mutates nothing; a `TWIReadData` call
whose count fits the buffer returns 2 but has already reset the receive
cursor to 0 and set the receive length to the requested count — every other
component of the driver state is unchanged. -/
theorem C1_amended (s : TWIState) (d : List Nat) (len rep a n rep2 : Nat)
    (h : isTWIReady s = false) :
    (len ≤ TXMAXBUFLEN → TWITransmitData d len rep s = (2, s)) ∧
    (n ≤ RXMAXBUFLEN →
      TWIReadData a n rep2 s = (2, { s with RXBuffIndex := 0, RXBuffLen := n })) := by
  constructor
  · intro hle
    simp [TWITransmitData, hle, h]
  · intro hn
    have h' : isTWIReady { s with RXBuffIndex := 0, RXBuffLen := n } = false := h
    simp [TWIReadData, TWITransmitData, TXMAXBUFLEN, hn, h']

/-- C1 witness: the amended statement evaluated at the concrete busy state. -/
theorem C1_amended_witness :
    (1 ≤ TXMAXBUFLEN → TWITransmitData [5] 1 0 busyState = (2, busyState)) ∧
    (3 ≤ RXMAXBUFLEN →
      TWIReadData 7 3 0 busyState = (2, { busyState with RXBuffIndex := 0, RXBuffLen := 3 })) :=
  C1_amended busyState [5] 1 0 7 3 0 (by decide)

/-! ### C5 -/

/-- C5: the claim states that processing the start-transmitted status sets the
mode to `MasterTransmitter`.  It does not: only the `TWI_MT_SLAW_ACK` case
assigns that mode and then falls through; entering the switch at
`TWI_START_SENT` leaves the mode untouched.  Concretely, from the state right
after a write was begun the mode is still `Initializing` afterwards. -/
theorem C5_counterexample :
    (ISR TWI_START_SENT busyState).TWIInfo.mode = TWIMode.Initializing ∧
    ¬ (ISR TWI_START_SENT busyState).TWIInfo.mode = TWIMode.MasterTransmitter := by
  decide

/-- C5 (amended): processing the start-transmitted status performs exactly the
shared data-ACK handling with the mode left unchanged (loading the next
transmit byte when one remains); it is the address+write-ACK status that sets
`MasterTransmitter` before the same handling, and the repeated-start status
only sets the mode to `RepeatedStartSent`. -/
theorem C5_amended (s : TWIState) :
    ISR TWI_START_SENT s = handleMT s ∧
    ISR TWI_MT_SLAW_ACK s =
      handleMT { s with TWIInfo := { s.TWIInfo with mode := TWIMode.MasterTransmitter } } ∧
    ISR TWI_REP_START_SENT s =
      { s with TWIInfo := { s.TWIInfo with mode := TWIMode.RepeatedStartSent } } ∧
    (s.TXBuffIndex < s.TXBuffLen →
      (ISR TWI_START_SENT s).TWIInfo.mode = s.TWIInfo.mode ∧
      (ISR TWI_START_SENT s).TWDR = s.TWITransmitBuffer.getD s.TXBuffIndex 0 ∧
      (ISR TWI_START_SENT s).lastBusAction = some BusAction.sendTransmit) :=
  ⟨rfl, rfl, rfl, fun h => by
    rw [ISR_start_sent, handleMT_load s h]
    exact ⟨rfl, rfl, rfl⟩⟩

/-- C5 witness: the conditional part of the amended statement at the concrete
state with a pending transmit byte. -/
theorem C5_amended_witness :
    (ISR TWI_START_SENT busyState).TWIInfo.mode = busyState.TWIInfo.mode ∧
    (ISR TWI_START_SENT busyState).TWDR =
      busyState.TWITransmitBuffer.getD busyState.TXBuffIndex 0 ∧
    (ISR TWI_START_SENT busyState).lastBusAction = some BusAction.sendTransmit :=
  (C5_amended busyState).2.2.2 (by decide)

/-! ### C7 -/

/-- C7: on the arbitration-lost status with `repStart = 0`, the handler
records the status code as the error code, returns to `Ready` and requests a
stop condition — for every state, however many bytes have transferred and
whatever the mode. -/
theorem C7_arbitration_lost (s : TWIState) (h : s.TWIInfo.repStart = 0) :
    ISR TWI_LOST_ARBIT s =
      { s with
        TWIInfo := { s.TWIInfo with mode := TWIMode.Ready, errorCode := TWI_LOST_ARBIT }
        lastBusAction := some BusAction.sendStop } := by
  rw [ISR_lost_arbit]
  simp [handleTermError, h]

/-- C7 witness: evaluated at the concrete busy state, whose `repStart` is 0. -/
theorem C7_arbitration_lost_witness :
    ISR TWI_LOST_ARBIT busyState =
      { busyState with
        TWIInfo := { busyState.TWIInfo with mode := TWIMode.Ready, errorCode := TWI_LOST_ARBIT }
        lastBusAction := some BusAction.sendStop } :=
  C7_arbitration_lost busyState (by decide)

/-! ### C8 -/

/-- C8: a write longer than the transmit capacity and a read longer than the
receive capacity are both rejected with result 1, with the entire driver
state unchanged. -/
theorem C8_overflow (s : TWIState) (d : List Nat) (rep a n rep2 : Nat)
    (hd : TXMAXBUFLEN < d.length) (hn : RXMAXBUFLEN < n) :
    TWITransmitData d d.length rep s = (1, s) ∧
    TWIReadData a n rep2 s = (1, s) := by
  constructor
  · simp [TWITransmitData, Nat.not_le.2 hd]
  · simp [TWIReadData, Nat.not_le.2 hn]

/-- C8 witness: a 21-byte write and a 21-byte read against capacity 20. -/
theorem C8_overflow_witness :
    TWITransmitData (List.replicate 21 3) (List.replicate 21 3).length 0 (TWIInit initialState) =
      (1, TWIInit initialState) ∧
    TWIReadData 7 21 0 (TWIInit initialState) = (1, TWIInit initialState) :=
  C8_overflow (TWIInit initialState) (List.replicate 21 3) 0 7 21 0 (by decide) (by decide)

/-! ### C9 -/

/-- C9: the one address byte `TWIReadData` builds and hands to the write path
is `(addr <<< 1) ||| 1` for every 7-bit address, and the delegation transmits
exactly that one byte with the same repeated-start flag. -/
theorem C9_address_byte (a n rep : Nat) (s : TWIState) (ha : a < 128)
    (hn : n ≤ RXMAXBUFLEN) :
    readAddrByte a = (a <<< 1) ||| 1 ∧
    TWIReadData a n rep s =
      (let r := TWITransmitData [readAddrByte a] 1 rep
        { s with RXBuffIndex := 0, RXBuffLen := n }
       if r.1 = 2 then (2, r.2) else (0, r.2)) := by
  constructor
  · unfold readAddrByte
    apply Nat.mod_eq_of_lt
    have h1 : a <<< 1 < 2 ^ 8 := by
      rw [Nat.shiftLeft_eq]
      omega
    have h2 : 1 < 2 ^ 8 := by norm_num
    exact Nat.or_lt_two_pow h1 h2
  · simp [TWIReadData, hn]

/-- C9 witness: address 7 gives the byte 15 and the delegation equation holds
at a concrete state. -/
theorem C9_address_byte_witness :
    readAddrByte 7 = (7 <<< 1) ||| 1 ∧
    TWIReadData 7 2 1 (TWIInit initialState) =
      (let r := TWITransmitData [readAddrByte 7] 1 1
        { TWIInit initialState with RXBuffIndex := 0, RXBuffLen := 2 }
       if r.1 = 2 then (2, r.2) else (0, r.2)) :=
  C9_address_byte 7 2 1 (TWIInit initialState) (by decide) (by decide)

/-! ### C10 -/

/-- C10: one handler invocation, on any status code, never changes the
transmit buffer contents, the transmit length, the receive length, or the
repeated-start flag. -/
theorem C10_frame (status : Nat) (s : TWIState) :
    (ISR status s).TWITransmitBuffer = s.TWITransmitBuffer ∧
    (ISR status s).TXBuffLen = s.TXBuffLen ∧
    (ISR status s).RXBuffLen = s.RXBuffLen ∧
    (ISR status s).TWIInfo.repStart = s.TWIInfo.repStart := by
  simp only [ISR, handleMT, handleMRreply, handleTermError]
  split_ifs <;> simp

/-! ### C4 -/

/-- C4: with `repStart` requested, every transaction-ending event requests a
fresh start instead of a stop — the data ACK once the buffer is exhausted
(the last byte), the final received byte, and any address/data NACK or
arbitration loss at any transfer progress whatsoever; the subsequent
repeated-start-sent status switches the mode to `RepeatedStartSent`; and a
`TWITransmitData` or `TWIReadData` call made in that mode does not request a
start condition but loads the first staged byte and requests transmit. -/
theorem C4_repeated_start_chain (s t u : TWIState) (d : List Nat)
    (len rep a n rep2 : Nat)
    (hrs : s.TWIInfo.repStart ≠ 0)
    (hu : u.TWIInfo.mode = TWIMode.RepeatedStartSent)
    (hlen1 : 0 < len) (hlencap : len ≤ TXMAXBUFLEN)
    (hbuf : 0 < u.TWITransmitBuffer.length)
    (hn : n ≤ RXMAXBUFLEN) :
    (s.TXBuffLen ≤ s.TXBuffIndex →
      (ISR TWI_MT_DATA_ACK s).lastBusAction = some BusAction.sendStart) ∧
    (ISR TWI_MR_DATA_NACK s).lastBusAction = some BusAction.sendStart ∧
    (ISR TWI_MT_SLAW_NACK s).lastBusAction = some BusAction.sendStart ∧
    (ISR TWI_MT_DATA_NACK s).lastBusAction = some BusAction.sendStart ∧
    (ISR TWI_MR_SLAR_NACK s).lastBusAction = some BusAction.sendStart ∧
    (ISR TWI_LOST_ARBIT s).lastBusAction = some BusAction.sendStart ∧
    (ISR TWI_REP_START_SENT t).TWIInfo.mode = TWIMode.RepeatedStartSent ∧
    (TWITransmitData d len rep u).1 = 0 ∧
    (TWITransmitData d len rep u).2.lastBusAction = some BusAction.sendTransmit ∧
    (TWITransmitData d len rep u).2.TWDR = d.getD 0 0 ∧
    (TWITransmitData d len rep u).2.TXBuffIndex = 1 ∧
    (TWIReadData a n rep2 u).2.lastBusAction = some BusAction.sendTransmit ∧
    (TWIReadData a n rep2 u).2.TWDR = readAddrByte a := by
  have htx := transmit_from_repstart d len rep u hu hlencap
  have hread :
      TWIReadData a n rep2 u =
        (0, { u with
              RXBuffIndex := 0
              RXBuffLen := n
              TWIInfo := { u.TWIInfo with mode := TWIMode.Initializing, repStart := rep2 }
              TWITransmitBuffer :=
                copyToTX u.TWITransmitBuffer [readAddrByte a] 1
              TXBuffLen := 1
              TXBuffIndex := 1
              TWDR := (copyToTX u.TWITransmitBuffer [readAddrByte a] 1).getD 0 0
              lastBusAction := some BusAction.sendTransmit }) := by
    have htx1 := transmit_from_repstart [readAddrByte a] 1 rep2
      { u with RXBuffIndex := 0, RXBuffLen := n } hu (by decide)
    simp [TWIReadData, hn, htx1]
  refine ⟨?_, ?_, ?_, ?_, ?_, ?_, ?_, ?_, ?_, ?_, ?_, ?_, ?_⟩
  · intro hdone
    rw [ISR_mt_data_ack, handleMT_chain s (Nat.not_lt.2 hdone) hrs]
  · rw [ISR_mr_data_nack, if_pos hrs]
  · rw [ISR_mt_slaw_nack]
    simp [handleTermError, hrs]
  · rw [ISR_mt_data_nack]
    simp [handleTermError, hrs]
  · rw [ISR_mr_slar_nack]
    simp [handleTermError, hrs]
  · rw [ISR_lost_arbit]
    simp [handleTermError, hrs]
  · rw [ISR_rep_start_sent]
  · rw [htx]
  · rw [htx]
  · rw [htx]
    exact getD_copyToTX u.TWITransmitBuffer d len 0 hlen1 hbuf
  · rw [htx]
  · rw [hread]
  · rw [hread]
    exact getD_copyToTX u.TWITransmitBuffer [readAddrByte a] 1 0 Nat.one_pos hbuf

/-- A concrete state in the middle of a repeated-start chain: a one-byte
write with `repStart = 1` was begun and the start event consumed the byte, so
the transmit cursor has reached the length and `repStart` is set. -/
def chainEndState : TWIState :=
  ISR TWI_START_SENT (TWITransmitData [9] 1 1 (TWIInit initialState)).2

/-- A concrete state holding the bus after a repeated start was transmitted:
`chainEndState` after its final data-ACK (which requests a start) and the
repeated-start-sent event. -/
def repHeldState : TWIState :=
  ISR TWI_REP_START_SENT (ISR TWI_MT_DATA_ACK chainEndState)

/-- A concrete mid-transfer state in a repeated-start transaction: a
three-byte write with `repStart = 1` was begun and only the first byte was
consumed by the start event, so the cursor (1) is strictly below the length
(3). -/
def midWriteState : TWIState :=
  ISR TWI_START_SENT (TWITransmitData [1, 2, 3] 3 1 (TWIInit initialState)).2

/-- C4 witness: representative conjuncts of the chain theorem evaluated on
the concrete chain states, including an address-NACK arriving mid-transfer
with two bytes still unsent. -/
theorem C4_repeated_start_chain_witness :
    ((ISR TWI_MT_DATA_ACK chainEndState).lastBusAction = some BusAction.sendStart ∧
      (TWITransmitData [3, 4] 2 1 repHeldState).2.lastBusAction =
        some BusAction.sendTransmit ∧
      (TWITransmitData [3, 4] 2 1 repHeldState).2.TWDR = [3, 4].getD 0 0 ∧
      (TWIReadData 7 2 1 repHeldState).2.TWDR = readAddrByte 7) ∧
    (ISR TWI_MT_SLAW_NACK midWriteState).lastBusAction = some BusAction.sendStart ∧
    (ISR TWI_LOST_ARBIT midWriteState).lastBusAction = some BusAction.sendStart := by
  have h := C4_repeated_start_chain chainEndState (TWIInit initialState) repHeldState
    [3, 4] 2 1 7 2 1 (by decide) (by decide) (by decide) (by decide) (by decide)
    (by decide)
  have hmid := C4_repeated_start_chain midWriteState (TWIInit initialState) repHeldState
    [3, 4] 2 1 7 2 1 (by decide) (by decide) (by decide) (by decide) (by decide)
    (by decide)
  exact ⟨⟨h.1 (by decide), h.2.2.2.2.2.2.2.2.1, h.2.2.2.2.2.2.2.2.2.1,
      h.2.2.2.2.2.2.2.2.2.2.2.2⟩,
    hmid.2.2.1, hmid.2.2.2.2.2.1⟩

/-! ### C2: the full write run -/

/-- The state after the first `j` bus events of a plain write transaction of
`n` bytes begun by `TWITransmitData d n 0`: event 1 is start-sent, event 2 is
the address ACK, and every later event is a data ACK. -/
def writeStateAt (d : List Nat) (n : Nat) (s0 : TWIState) : Nat → TWIState
  | 0 => (TWITransmitData d n 0 s0).2
  | 1 => ISR TWI_START_SENT (writeStateAt d n s0 0)
  | 2 => ISR TWI_MT_SLAW_ACK (writeStateAt d n s0 1)
  | j + 3 => ISR TWI_MT_DATA_ACK (writeStateAt d n s0 (j + 2))

theorem writeStateAt_succ (d : List Nat) (n : Nat) (s0 : TWIState) :
    ∀ j, 2 ≤ j → writeStateAt d n s0 (j + 1) = ISR TWI_MT_DATA_ACK (writeStateAt d n s0 j)
  | _ + 2, _ => rfl

/-- During the load phase of a write of `n` bytes from `Ready`, the state
after event `j` (for `1 ≤ j ≤ n`) has consumed `j` bytes of the staged
buffer, has the byte at position `j - 1` in the data register, and has armed
a transmit. -/
theorem write_load_phase (d : List Nat) (n : Nat) (s0 : TWIState)
    (hm : s0.TWIInfo.mode = TWIMode.Ready) (hcap : n ≤ TXMAXBUFLEN) :
    ∀ j, 1 ≤ j → j ≤ n →
      (writeStateAt d n s0 j).TXBuffIndex = j ∧
      (writeStateAt d n s0 j).TXBuffLen = n ∧
      (writeStateAt d n s0 j).TWITransmitBuffer = copyToTX s0.TWITransmitBuffer d n ∧
      (writeStateAt d n s0 j).TWIInfo.repStart = 0 ∧
      (writeStateAt d n s0 j).TWDR = (copyToTX s0.TWITransmitBuffer d n).getD (j - 1) 0 ∧
      (writeStateAt d n s0 j).lastBusAction = some BusAction.sendTransmit := by
  intro j h1
  induction j, h1 using Nat.le_induction with
  | base =>
    intro h2
    have hpos : 0 < n := h2
    have h0 : writeStateAt d n s0 0 = (TWITransmitData d n 0 s0).2 := rfl
    rw [transmit_from_ready d n 0 s0 hm hcap] at h0
    have h1eq : writeStateAt d n s0 1 = handleMT (writeStateAt d n s0 0) := rfl
    rw [h1eq, h0]
    simp [handleMT, hpos]
  | succ j hj ih =>
    intro h2
    obtain ⟨hidx, hlen, hbuf, hrep, _, _⟩ := ih (by omega)
    have hlt : j < n := by omega
    rcases Nat.lt_or_ge j 2 with hj2 | hj2
    · have hj1 : j = 1 := by omega
      subst hj1
      have h2eq : writeStateAt d n s0 2 = ISR TWI_MT_SLAW_ACK (writeStateAt d n s0 1) := rfl
      rw [h2eq, ISR_mt_slaw_ack]
      simp only [handleMT]
      simp [hidx, hlen, hbuf, hrep, hlt]
    · rw [writeStateAt_succ d n s0 j hj2, ISR_mt_data_ack]
      simp only [handleMT]
      simp [hidx, hlen, hbuf, hrep, hlt]

/-- C2: a write of `n` bytes (`0 < n ≤ capacity`) with `repStart = 0`, begun
from a `Ready` state and fed start-sent, address-ACK and then one data-ACK
status per byte, performs exactly `n` loads — after event `k + 1` the data
register holds byte `k` and a transmit is armed, for every `k < n` — and
then terminates with mode `Ready`, error code `0xFF` (no error), a stop
condition requested, and the whole buffer consumed. -/
theorem C2_write_run (d : List Nat) (n : Nat) (s0 : TWIState)
    (hm : s0.TWIInfo.mode = TWIMode.Ready)
    (hbl : s0.TWITransmitBuffer.length = TXMAXBUFLEN)
    (hn0 : 0 < n) (hcap : n ≤ TXMAXBUFLEN) :
    (∀ k, k < n →
      (writeStateAt d n s0 (k + 1)).TWDR = d.getD k 0 ∧
      (writeStateAt d n s0 (k + 1)).lastBusAction = some BusAction.sendTransmit ∧
      (writeStateAt d n s0 (k + 1)).TXBuffIndex = k + 1) ∧
    (writeStateAt d n s0 (n + 2)).TWIInfo.mode = TWIMode.Ready ∧
    (writeStateAt d n s0 (n + 2)).TWIInfo.errorCode = 0xFF ∧
    (writeStateAt d n s0 (n + 2)).lastBusAction = some BusAction.sendStop ∧
    (writeStateAt d n s0 (n + 2)).TXBuffIndex = n := by
  have hload := write_load_phase d n s0 hm hcap
  constructor
  · intro k hk
    obtain ⟨hidx, _, _, _, hTWDR, hact⟩ := hload (k + 1) (by omega) (by omega)
    refine ⟨?_, hact, hidx⟩
    rw [hTWDR]
    simp only [Nat.add_sub_cancel]
    exact getD_copyToTX s0.TWITransmitBuffer d n k hk (by omega)
  · obtain ⟨hidx, hlen, _, hrep, _, _⟩ := hload n (by omega) (le_refl n)
    have hfin1 :
        (writeStateAt d n s0 (n + 1)).TWIInfo.mode = TWIMode.Ready ∧
        (writeStateAt d n s0 (n + 1)).TWIInfo.errorCode = 0xFF ∧
        (writeStateAt d n s0 (n + 1)).TWIInfo.repStart = 0 ∧
        (writeStateAt d n s0 (n + 1)).lastBusAction = some BusAction.sendStop ∧
        (writeStateAt d n s0 (n + 1)).TXBuffIndex = n ∧
        (writeStateAt d n s0 (n + 1)).TXBuffLen = n := by
      rcases Nat.lt_or_ge n 2 with hn2 | hn2
      · have hn1 : n = 1 := by omega
        subst hn1
        have h2eq : writeStateAt d 1 s0 2 = ISR TWI_MT_SLAW_ACK (writeStateAt d 1 s0 1) := rfl
        rw [h2eq, ISR_mt_slaw_ack]
        simp only [handleMT]
        simp [hidx, hlen, hrep]
      · rw [writeStateAt_succ d n s0 n hn2, ISR_mt_data_ack]
        simp only [handleMT]
        simp [hidx, hlen, hrep]
    obtain ⟨hm1, he1, hr1, _, hi1, hl1⟩ := hfin1
    have hstep2 :
        writeStateAt d n s0 (n + 2) = ISR TWI_MT_DATA_ACK (writeStateAt d n s0 (n + 1)) := by
      have := writeStateAt_succ d n s0 (n + 1) (by omega)
      simpa using this
    rw [hstep2, ISR_mt_data_ack]
    simp only [handleMT]
    simp [hi1, hl1, hr1, hm1]

/-- C2 witness: a three-byte write from a freshly initialized driver. -/
theorem C2_write_run_witness :
    ((writeStateAt [11, 12, 13] 3 (TWIInit initialState) 2).TWDR = [11, 12, 13].getD 1 0 ∧
      (writeStateAt [11, 12, 13] 3 (TWIInit initialState) 2).lastBusAction =
        some BusAction.sendTransmit ∧
      (writeStateAt [11, 12, 13] 3 (TWIInit initialState) 2).TXBuffIndex = 2) ∧
    (writeStateAt [11, 12, 13] 3 (TWIInit initialState) 5).TWIInfo.mode = TWIMode.Ready ∧
    (writeStateAt [11, 12, 13] 3 (TWIInit initialState) 5).lastBusAction =
      some BusAction.sendStop := by
  have h := C2_write_run [11, 12, 13] 3 (TWIInit initialState) (by decide) (by decide)
    (by decide) (by decide)
  exact ⟨h.1 1 (by decide), h.2.1, h.2.2.2.1⟩

/-! ### C3: the full read run -/

/-- The state after the first `j` bus events of a read transaction of `n`
bytes begun by `TWIReadData a n 0`: event 1 is start-sent, event 2 the
address+read ACK, and event `i + 3` delivers received byte `i` — as a
data-ACK event while the driver had replied ACK (`i + 1 < n`) and as the
final data-NACK event for the last byte.  `bs i` is byte `i` placed in the
data register by the hardware before the event fires. -/
def readStateAt (a n : Nat) (bs : Nat → Nat) (s0 : TWIState) : Nat → TWIState
  | 0 => (TWIReadData a n 0 s0).2
  | 1 => ISR TWI_START_SENT (readStateAt a n bs s0 0)
  | 2 => ISR TWI_MR_SLAR_ACK (readStateAt a n bs s0 1)
  | j + 3 =>
    let t := readStateAt a n bs s0 (j + 2)
    if j + 1 < n then ISR TWI_MR_DATA_ACK { t with TWDR := bs j }
    else ISR TWI_MR_DATA_NACK { t with TWDR := bs j }

theorem readStateAt_succ (a n : Nat) (bs : Nat → Nat) (s0 : TWIState) (j : Nat) :
    readStateAt a n bs s0 (j + 3) =
      (if j + 1 < n then
        ISR TWI_MR_DATA_ACK { readStateAt a n bs s0 (j + 2) with TWDR := bs j }
      else
        ISR TWI_MR_DATA_NACK { readStateAt a n bs s0 (j + 2) with TWDR := bs j }) := rfl

/-- Field effect of the ISR on a received-byte ACK event, with the incoming
byte `v` in the data register. -/
theorem step_data_ack (t : TWIState) (v : Nat) :
    (ISR TWI_MR_DATA_ACK { t with TWDR := v }).RXBuffIndex = t.RXBuffIndex + 1 ∧
    (ISR TWI_MR_DATA_ACK { t with TWDR := v }).RXBuffLen = t.RXBuffLen ∧
    (ISR TWI_MR_DATA_ACK { t with TWDR := v }).TWIInfo.repStart = t.TWIInfo.repStart ∧
    (ISR TWI_MR_DATA_ACK { t with TWDR := v }).TWIInfo.mode = t.TWIInfo.mode ∧
    (ISR TWI_MR_DATA_ACK { t with TWDR := v }).TWIReceiveBuffer =
      t.TWIReceiveBuffer.set t.RXBuffIndex v ∧
    (ISR TWI_MR_DATA_ACK { t with TWDR := v }).lastBusAction =
      some (if t.RXBuffIndex + 1 < t.RXBuffLen - 1 then BusAction.sendACK
            else BusAction.sendNACK) := by
  rw [ISR_mr_data_ack]
  simp only [handleMRreply]
  by_cases h : t.RXBuffIndex + 1 < t.RXBuffLen - 1 <;> simp [h]

/-- Field effect of the ISR on the final received-byte NACK event when no
repeated start is requested. -/
theorem step_data_nack (t : TWIState) (v : Nat) (hrep : t.TWIInfo.repStart = 0) :
    (ISR TWI_MR_DATA_NACK { t with TWDR := v }).RXBuffIndex = t.RXBuffIndex + 1 ∧
    (ISR TWI_MR_DATA_NACK { t with TWDR := v }).RXBuffLen = t.RXBuffLen ∧
    (ISR TWI_MR_DATA_NACK { t with TWDR := v }).TWIReceiveBuffer =
      t.TWIReceiveBuffer.set t.RXBuffIndex v ∧
    (ISR TWI_MR_DATA_NACK { t with TWDR := v }).TWIInfo.mode = TWIMode.Ready ∧
    (ISR TWI_MR_DATA_NACK { t with TWDR := v }).TWIInfo.errorCode = 0xFF ∧
    (ISR TWI_MR_DATA_NACK { t with TWDR := v }).lastBusAction = some BusAction.sendStop := by
  rw [ISR_mr_data_nack]
  simp [hrep]

/-- Field effect of the ISR on the address+read ACK event. -/
theorem step_slar_ack (t : TWIState) :
    (ISR TWI_MR_SLAR_ACK t).RXBuffIndex = t.RXBuffIndex ∧
    (ISR TWI_MR_SLAR_ACK t).RXBuffLen = t.RXBuffLen ∧
    (ISR TWI_MR_SLAR_ACK t).TWIInfo.repStart = t.TWIInfo.repStart ∧
    (ISR TWI_MR_SLAR_ACK t).TWIReceiveBuffer = t.TWIReceiveBuffer ∧
    (ISR TWI_MR_SLAR_ACK t).TWIInfo.mode = TWIMode.MasterReceiver ∧
    (ISR TWI_MR_SLAR_ACK t).lastBusAction =
      some (if t.RXBuffIndex < t.RXBuffLen - 1 then BusAction.sendACK
            else BusAction.sendNACK) := by
  rw [ISR_mr_slar_ack]
  simp only [handleMRreply]
  by_cases h : t.RXBuffIndex < t.RXBuffLen - 1 <;> simp [h]

/-- The master-transmitter block never touches the receive side. -/
theorem handleMT_rx_fields (s : TWIState) :
    (handleMT s).RXBuffIndex = s.RXBuffIndex ∧
    (handleMT s).RXBuffLen = s.RXBuffLen ∧
    (handleMT s).TWIInfo.repStart = s.TWIInfo.repStart ∧
    (handleMT s).TWIReceiveBuffer = s.TWIReceiveBuffer := by
  simp only [handleMT]
  split_ifs <;> simp

/-- Invariant of the receive loop: after the event arming the reply for byte
`j` (event `j + 2`), `j` bytes are stored, the cursor is `j`, and the armed
reply is ACK exactly while byte `j` is not the last. -/
def ReadPhase (a n : Nat) (bs : Nat → Nat) (s0 : TWIState) (j : Nat) : Prop :=
  (readStateAt a n bs s0 (j + 2)).RXBuffIndex = j ∧
  (readStateAt a n bs s0 (j + 2)).RXBuffLen = n ∧
  (readStateAt a n bs s0 (j + 2)).TWIInfo.repStart = 0 ∧
  (readStateAt a n bs s0 (j + 2)).TWIInfo.mode = TWIMode.MasterReceiver ∧
  (readStateAt a n bs s0 (j + 2)).TWIReceiveBuffer.length = RXMAXBUFLEN ∧
  (∀ i, i < j → (readStateAt a n bs s0 (j + 2)).TWIReceiveBuffer.getD i 0 = bs i) ∧
  (readStateAt a n bs s0 (j + 2)).lastBusAction =
    some (if j + 1 < n then BusAction.sendACK else BusAction.sendNACK)

theorem read_phase (a n : Nat) (bs : Nat → Nat) (s0 : TWIState)
    (hm : s0.TWIInfo.mode = TWIMode.Ready)
    (hrx : s0.TWIReceiveBuffer.length = RXMAXBUFLEN)
    (hcap : n ≤ RXMAXBUFLEN) :
    ∀ j, j < n → ReadPhase a n bs s0 j := by
  have htr := transmit_from_ready [readAddrByte a] 1 0
    { s0 with RXBuffIndex := 0, RXBuffLen := n } hm (by decide)
  have h0 : readStateAt a n bs s0 0 =
      { s0 with
        TWIInfo := { s0.TWIInfo with mode := TWIMode.Initializing, repStart := 0 }
        TWITransmitBuffer := copyToTX s0.TWITransmitBuffer [readAddrByte a] 1
        TXBuffLen := 1
        TXBuffIndex := 0
        RXBuffIndex := 0
        RXBuffLen := n
        lastBusAction := some BusAction.sendStart } := by
    show (TWIReadData a n 0 s0).2 = _
    simp [TWIReadData, hcap, htr]
  have e1 : readStateAt a n bs s0 1 = handleMT (readStateAt a n bs s0 0) := rfl
  obtain ⟨m1, m2, m3, m4⟩ := handleMT_rx_fields (readStateAt a n bs s0 0)
  have h1i : (readStateAt a n bs s0 1).RXBuffIndex = 0 := by rw [e1, m1, h0]
  have h1l : (readStateAt a n bs s0 1).RXBuffLen = n := by rw [e1, m2, h0]
  have h1r : (readStateAt a n bs s0 1).TWIInfo.repStart = 0 := by rw [e1, m3, h0]
  have h1b : (readStateAt a n bs s0 1).TWIReceiveBuffer = s0.TWIReceiveBuffer := by
    rw [e1, m4, h0]
  intro j
  induction j with
  | zero =>
    intro hn
    have e2 : readStateAt a n bs s0 2 = ISR TWI_MR_SLAR_ACK (readStateAt a n bs s0 1) := rfl
    obtain ⟨k1, k2, k3, k4, k5, k6⟩ := step_slar_ack (readStateAt a n bs s0 1)
    refine ⟨?_, ?_, ?_, ?_, ?_, ?_, ?_⟩
    · rw [e2, k1, h1i]
    · rw [e2, k2, h1l]
    · rw [e2, k3, h1r]
    · rw [e2, k5]
    · rw [e2, k4, h1b, hrx]
    · exact fun i hi => absurd hi (Nat.not_lt_zero i)
    · rw [e2, k6, h1i, h1l]
      rcases Nat.lt_or_ge (0 + 1) n with hc | hc
      · rw [if_pos (show 0 < n - 1 by omega), if_pos hc]
      · rw [if_neg (show ¬ 0 < n - 1 by omega), if_neg (by omega)]
  | succ j ih =>
    intro hjn
    obtain ⟨p1, p2, p3, p4, p5, p6, p7⟩ := ih (by omega)
    have e3 : readStateAt a n bs s0 (j + 1 + 2) =
        ISR TWI_MR_DATA_ACK { readStateAt a n bs s0 (j + 2) with TWDR := bs j } := by
      rw [show j + 1 + 2 = j + 3 from rfl, readStateAt_succ, if_pos hjn]
    obtain ⟨q1, q2, q3, q4, q5, q6⟩ := step_data_ack (readStateAt a n bs s0 (j + 2)) (bs j)
    refine ⟨?_, ?_, ?_, ?_, ?_, ?_, ?_⟩
    · rw [e3, q1, p1]
    · rw [e3, q2, p2]
    · rw [e3, q3, p3]
    · rw [e3, q4, p4]
    · rw [e3, q5, List.length_set, p5]
    · intro i hi
      rw [e3, q5, p1]
      rcases Nat.lt_succ_iff_lt_or_eq.1 hi with hlt | heq
      · rw [getD_set_ne _ _ _ _ (by omega)]
        exact p6 i hlt
      · subst heq
        apply getD_set_self
        rw [p5]
        exact lt_of_lt_of_le (by omega) hcap
    · rw [e3, q6, p1, p2]
      rcases Nat.lt_or_ge (j + 1 + 1) n with hc | hc
      · rw [if_pos (show j + 1 < n - 1 by omega), if_pos hc]
      · rw [if_neg (show ¬ j + 1 < n - 1 by omega), if_neg (by omega)]

/-- C3: a read of `n ≥ 1` bytes begun from a `Ready` state with
`repStart = 0`: the reply armed before byte `j` arrives (at the address-ACK
event for byte 0 — hence NACK already there when `n = 1` — and at byte
`j - 1`'s event otherwise) is ACK exactly for `j ≤ n - 2` and NACK for byte
`n - 1`; every received byte `i` is stored at receive-buffer position `i`;
and after the NACK-terminated byte is stored the mode is `Ready`, no error
is recorded and a stop condition is requested. -/
theorem C3_read_run (a n : Nat) (bs : Nat → Nat) (s0 : TWIState)
    (hm : s0.TWIInfo.mode = TWIMode.Ready)
    (hrx : s0.TWIReceiveBuffer.length = RXMAXBUFLEN)
    (hn1 : 1 ≤ n) (hcap : n ≤ RXMAXBUFLEN) :
    (∀ j, j < n →
      (readStateAt a n bs s0 (j + 2)).lastBusAction =
        some (if j + 1 < n then BusAction.sendACK else BusAction.sendNACK)) ∧
    (∀ i, i < n → (readStateAt a n bs s0 (n + 2)).TWIReceiveBuffer.getD i 0 = bs i) ∧
    (readStateAt a n bs s0 (n + 2)).TWIInfo.mode = TWIMode.Ready ∧
    (readStateAt a n bs s0 (n + 2)).TWIInfo.errorCode = 0xFF ∧
    (readStateAt a n bs s0 (n + 2)).lastBusAction = some BusAction.sendStop ∧
    (readStateAt a n bs s0 (n + 2)).RXBuffIndex = n := by
  have hphase := read_phase a n bs s0 hm hrx hcap
  obtain ⟨p1, p2, p3, p4, p5, p6, p7⟩ := hphase (n - 1) (by omega)
  have efin : readStateAt a n bs s0 (n + 2) =
      ISR TWI_MR_DATA_NACK { readStateAt a n bs s0 (n - 1 + 2) with TWDR := bs (n - 1) } := by
    rw [show n + 2 = (n - 1) + 3 by omega, readStateAt_succ,
      if_neg (show ¬ (n - 1) + 1 < n by omega)]
  obtain ⟨q1, q2, q3, q4, q5, q6⟩ :=
    step_data_nack (readStateAt a n bs s0 (n - 1 + 2)) (bs (n - 1)) p3
  refine ⟨?_, ?_, ?_, ?_, ?_, ?_⟩
  · exact fun j hj => (hphase j hj).2.2.2.2.2.2
  · intro i hi
    rw [efin, q3, p1]
    rcases Nat.lt_or_ge i (n - 1) with hlt | hge
    · rw [getD_set_ne _ _ _ _ (by omega)]
      exact p6 i hlt
    · have heq : i = n - 1 := by omega
      subst heq
      apply getD_set_self
      rw [p5]
      exact lt_of_lt_of_le (by omega) hcap
  · rw [efin, q4]
  · rw [efin, q5]
  · rw [efin, q6]
  · rw [efin, q1, p1]
    omega

/-- C3 witness: a two-byte read from a freshly initialized driver receiving
bytes 100 and 101. -/
theorem C3_read_run_witness :
    (readStateAt 7 2 (fun i => 100 + i) (TWIInit initialState) 2).lastBusAction =
      some (if 0 + 1 < 2 then BusAction.sendACK else BusAction.sendNACK) ∧
    (readStateAt 7 2 (fun i => 100 + i) (TWIInit initialState) 4).TWIReceiveBuffer.getD 0 0 =
      100 ∧
    (readStateAt 7 2 (fun i => 100 + i) (TWIInit initialState) 4).TWIReceiveBuffer.getD 1 0 =
      101 ∧
    (readStateAt 7 2 (fun i => 100 + i) (TWIInit initialState) 4).TWIInfo.mode =
      TWIMode.Ready ∧
    (readStateAt 7 2 (fun i => 100 + i) (TWIInit initialState) 4).lastBusAction =
      some BusAction.sendStop := by
  have h := C3_read_run 7 2 (fun i => 100 + i) (TWIInit initialState) (by decide) (by decide)
    (by decide) (by decide)
  exact ⟨h.1 0 (by decide), h.2.1 0 (by decide), h.2.1 1 (by decide), h.2.2.1, h.2.2.2.2.1⟩

/-! ### C6: cursor-length invariant over reachable states -/

/-- Which direction the transaction in flight was addressed for: set by the
public call that staged it.  The hardware reports the address+read ACK
status only for a transaction staged by `TWIReadData`. -/
inductive TransKind where
  | readK
  | writeK
  deriving DecidableEq, Repr

/-- The address+read ACK event consumes the addressing phase; every other
status leaves the transaction direction as it is. -/
def stepKind (status : Nat) (k : Option TransKind) : Option TransKind :=
  if status = TWI_MR_SLAR_ACK then none else k

/-- Hardware consistency of a reported status with the driver's last armed
bus action: a data byte arrives with the ACK (resp. NACK) status only after
the driver armed that reply, the address+read ACK only during the addressing
phase of a read after a transmit, and a (repeated) start status only after a
start request. -/
def statusAllowed (s : TWIState) (k : Option TransKind) (status : Nat) : Prop :=
  (status = TWI_MR_DATA_ACK → s.lastBusAction = some BusAction.sendACK) ∧
  (status = TWI_MR_DATA_NACK → s.lastBusAction = some BusAction.sendNACK) ∧
  (status = TWI_MR_SLAR_ACK →
    k = some TransKind.readK ∧ s.lastBusAction = some BusAction.sendTransmit) ∧
  ((status = TWI_START_SENT ∨ status = TWI_REP_START_SENT) →
    s.lastBusAction = some BusAction.sendStart)

/-- Driver states reachable from a freshly initialized driver by public API
calls with positive lengths — reads only attempted while the driver is ready
— and hardware-consistent bus events. -/
inductive Reachable : TWIState → Option TransKind → Prop where
  | init : Reachable (TWIInit initialState) none
  | write (s : TWIState) (k : Option TransKind) (d : List Nat) (len rep : Nat) :
      Reachable s k → 1 ≤ len → len ≤ TXMAXBUFLEN → isTWIReady s = true →
      Reachable (TWITransmitData d len rep s).2 (some TransKind.writeK)
  | read (s : TWIState) (k : Option TransKind) (a n rep : Nat) :
      Reachable s k → 1 ≤ n → n ≤ RXMAXBUFLEN → isTWIReady s = true →
      Reachable (TWIReadData a n rep s).2 (some TransKind.readK)
  | event (s : TWIState) (k : Option TransKind) (status : Nat) :
      Reachable s k → statusAllowed s k status →
      Reachable (ISR status s) (stepKind status k)

/-- The inductive invariant: both cursors stay within their lengths, an armed
ACK (resp. NACK) leaves at least two (resp. one) receive slots, no reply is
armed while the driver is ready, and during the addressing phase of a read
the receive cursor is strictly below the length with no reply armed. -/
def DriverInv (s : TWIState) (k : Option TransKind) : Prop :=
  s.TXBuffIndex ≤ s.TXBuffLen ∧
  s.RXBuffIndex ≤ s.RXBuffLen ∧
  (s.lastBusAction = some BusAction.sendACK → s.RXBuffIndex + 1 < s.RXBuffLen) ∧
  (s.lastBusAction = some BusAction.sendNACK → s.RXBuffIndex < s.RXBuffLen) ∧
  (isTWIReady s = true →
    s.lastBusAction ≠ some BusAction.sendACK ∧ s.lastBusAction ≠ some BusAction.sendNACK) ∧
  (k = some TransKind.readK →
    s.RXBuffIndex < s.RXBuffLen ∧
    s.lastBusAction ≠ some BusAction.sendACK ∧ s.lastBusAction ≠ some BusAction.sendNACK)

theorem isTWIReady_iff (s : TWIState) :
    isTWIReady s = true ↔
      (s.TWIInfo.mode = TWIMode.Ready ∨ s.TWIInfo.mode = TWIMode.RepeatedStartSent) := by
  unfold isTWIReady
  split_ifs with h <;> simp [h]

theorem handleMT_inv (s : TWIState) (k : Option TransKind)
    (hT : s.TXBuffIndex ≤ s.TXBuffLen) (hR : s.RXBuffIndex ≤ s.RXBuffLen)
    (hK : k = some TransKind.readK → s.RXBuffIndex < s.RXBuffLen) :
    DriverInv (handleMT s) k := by
  rcases Nat.lt_or_ge s.TXBuffIndex s.TXBuffLen with hb | hb
  · rw [handleMT_load s hb]
    refine ⟨?_, hR, ?_, ?_, ?_, ?_⟩
    · show s.TXBuffIndex + 1 ≤ s.TXBuffLen
      omega
    · intro hc; simp at hc
    · intro hc; simp at hc
    · intro _; exact ⟨by simp, by simp⟩
    · intro hk; exact ⟨hK hk, by simp, by simp⟩
  · have hb' : ¬ s.TXBuffIndex < s.TXBuffLen := Nat.not_lt.2 hb
    by_cases hr : s.TWIInfo.repStart ≠ 0
    · rw [handleMT_chain s hb' hr]
      refine ⟨hT, hR, ?_, ?_, ?_, ?_⟩
      · intro hc; simp at hc
      · intro hc; simp at hc
      · intro _; exact ⟨by simp, by simp⟩
      · intro hk; exact ⟨hK hk, by simp, by simp⟩
    · rw [handleMT_finish s hb' (not_not.1 hr)]
      refine ⟨hT, hR, ?_, ?_, ?_, ?_⟩
      · intro hc; simp at hc
      · intro hc; simp at hc
      · intro _; exact ⟨by simp, by simp⟩
      · intro hk; exact ⟨hK hk, by simp, by simp⟩

theorem handleTermError_inv (c : Nat) (s : TWIState) (k : Option TransKind)
    (hT : s.TXBuffIndex ≤ s.TXBuffLen) (hR : s.RXBuffIndex ≤ s.RXBuffLen)
    (hK : k = some TransKind.readK → s.RXBuffIndex < s.RXBuffLen) :
    DriverInv (handleTermError c s) k := by
  unfold handleTermError
  split_ifs with hr
  · refine ⟨hT, hR, ?_, ?_, ?_, ?_⟩
    · intro hc; simp at hc
    · intro hc; simp at hc
    · intro _; exact ⟨by simp, by simp⟩
    · intro hk; exact ⟨hK hk, by simp, by simp⟩
  · refine ⟨hT, hR, ?_, ?_, ?_, ?_⟩
    · intro hc; simp at hc
    · intro hc; simp at hc
    · intro _; exact ⟨by simp, by simp⟩
    · intro hk; exact ⟨hK hk, by simp, by simp⟩

theorem reachable_inv (s : TWIState) (k : Option TransKind) (h : Reachable s k) :
    DriverInv s k := by
  induction h with
  | init =>
    unfold DriverInv
    decide
  | write s k d len rep hreach hlen1 hlencap hready ih =>
    obtain ⟨i1, i2, i3, i4, i5, i6⟩ := ih
    rcases (isTWIReady_iff s).1 hready with hmR | hmS
    · rw [transmit_from_ready d len rep s hmR hlencap]
      refine ⟨?_, i2, ?_, ?_, ?_, ?_⟩
      · show (0 : Nat) ≤ len
        omega
      · intro hc; simp at hc
      · intro hc; simp at hc
      · intro hrdy
        rw [isTWIReady_iff] at hrdy
        simp at hrdy
      · intro hk; simp at hk
    · rw [transmit_from_repstart d len rep s hmS hlencap]
      refine ⟨?_, i2, ?_, ?_, ?_, ?_⟩
      · show (1 : Nat) ≤ len
        omega
      · intro hc; simp at hc
      · intro hc; simp at hc
      · intro hrdy
        rw [isTWIReady_iff] at hrdy
        simp at hrdy
      · intro hk; simp at hk
  | read s k a n rep hreach hn1 hncap hready ih =>
    have hrd : TWIReadData a n rep s =
        (0, (TWITransmitData [readAddrByte a] 1 rep
          { s with RXBuffIndex := 0, RXBuffLen := n }).2) := by
      have hready1 : isTWIReady { s with RXBuffIndex := 0, RXBuffLen := n } = true := hready
      unfold TWITransmitData
      rw [if_pos (show (1 : Nat) ≤ TXMAXBUFLEN by decide)]
      simp only [TWIReadData, hready1]
      rw [if_pos hncap]
      simp [TWITransmitData, hready1, TXMAXBUFLEN]
      split <;> simp
    rcases (isTWIReady_iff s).1 hready with hmR | hmS
    · have htr := transmit_from_ready [readAddrByte a] 1 rep
        { s with RXBuffIndex := 0, RXBuffLen := n } hmR (by decide)
      rw [hrd, htr]
      refine ⟨?_, ?_, ?_, ?_, ?_, ?_⟩
      · show (0 : Nat) ≤ 1
        omega
      · show (0 : Nat) ≤ n
        omega
      · intro hc; simp at hc
      · intro hc; simp at hc
      · intro hrdy
        rw [isTWIReady_iff] at hrdy
        simp at hrdy
      · intro _
        exact ⟨by show (0 : Nat) < n; omega, by simp, by simp⟩
    · have htr := transmit_from_repstart [readAddrByte a] 1 rep
        { s with RXBuffIndex := 0, RXBuffLen := n } hmS (by decide)
      rw [hrd, htr]
      refine ⟨?_, ?_, ?_, ?_, ?_, ?_⟩
      · show (1 : Nat) ≤ 1
        omega
      · show (0 : Nat) ≤ n
        omega
      · intro hc; simp at hc
      · intro hc; simp at hc
      · intro hrdy
        rw [isTWIReady_iff] at hrdy
        simp at hrdy
      · intro _
        exact ⟨by show (0 : Nat) < n; omega, by simp, by simp⟩
  | event s k status hreach hallowed ih =>
    obtain ⟨hDA, hDN, hSA, hST⟩ := hallowed
    obtain ⟨i1, i2, i3, i4, i5, i6⟩ := ih
    rcases eq_or_ne status TWI_MT_SLAW_ACK with h | hne1
    · subst h
      rw [ISR_mt_slaw_ack]
      exact handleMT_inv _ k i1 i2 (fun hk => (i6 hk).1)
    rcases eq_or_ne status TWI_START_SENT with h | hne2
    · subst h
      rw [ISR_start_sent]
      exact handleMT_inv s k i1 i2 (fun hk => (i6 hk).1)
    rcases eq_or_ne status TWI_MT_DATA_ACK with h | hne3
    · subst h
      rw [ISR_mt_data_ack]
      exact handleMT_inv s k i1 i2 (fun hk => (i6 hk).1)
    rcases eq_or_ne status TWI_MR_SLAR_ACK with h | hne4
    · subst h
      obtain ⟨hkr, -⟩ := hSA rfl
      obtain ⟨hil, -, -⟩ := i6 hkr
      rw [ISR_mr_slar_ack]
      show DriverInv _ (stepKind TWI_MR_SLAR_ACK k)
      by_cases hb : s.RXBuffIndex < s.RXBuffLen - 1 <;>
        simp [DriverInv, stepKind, handleMRreply, isTWIReady, hb, i1, i2] <;>
        omega
    rcases eq_or_ne status TWI_MR_DATA_ACK with h | hne5
    · subst h
      have hact := hDA rfl
      have hplus := i3 hact
      have hk6 : ¬ k = some TransKind.readK := fun hk => (i6 hk).2.1 hact
      have hnr : ¬ (s.TWIInfo.mode = TWIMode.Ready ∨
          s.TWIInfo.mode = TWIMode.RepeatedStartSent) :=
        fun hor => (i5 ((isTWIReady_iff s).2 hor)).1 hact
      rw [ISR_mr_data_ack]
      by_cases hb : s.RXBuffIndex + 1 < s.RXBuffLen - 1 <;>
        simp [DriverInv, stepKind, handleMRreply, isTWIReady, hb, i1, hk6, hnr] <;>
        omega
    rcases eq_or_ne status TWI_MR_DATA_NACK with h | hne6
    · subst h
      have hact := hDN rfl
      have hlt := i4 hact
      have hk6 : ¬ k = some TransKind.readK := fun hk => (i6 hk).2.2 hact
      have hnr : ¬ (s.TWIInfo.mode = TWIMode.Ready ∨
          s.TWIInfo.mode = TWIMode.RepeatedStartSent) :=
        fun hor => (i5 ((isTWIReady_iff s).2 hor)).2 hact
      rw [ISR_mr_data_nack]
      by_cases hr : s.TWIInfo.repStart ≠ 0 <;>
        simp [DriverInv, stepKind, isTWIReady, hr, i1, hk6, hnr] <;>
        omega
    rcases eq_or_ne status TWI_MR_SLAR_NACK with h | hne7
    · subst h
      rw [ISR_mr_slar_nack]
      exact handleTermError_inv _ s k i1 i2 (fun hk => (i6 hk).1)
    rcases eq_or_ne status TWI_MT_SLAW_NACK with h | hne8
    · subst h
      rw [ISR_mt_slaw_nack]
      exact handleTermError_inv _ s k i1 i2 (fun hk => (i6 hk).1)
    rcases eq_or_ne status TWI_MT_DATA_NACK with h | hne9
    · subst h
      rw [ISR_mt_data_nack]
      exact handleTermError_inv _ s k i1 i2 (fun hk => (i6 hk).1)
    rcases eq_or_ne status TWI_LOST_ARBIT with h | hne10
    · subst h
      rw [ISR_lost_arbit]
      exact handleTermError_inv _ s k i1 i2 (fun hk => (i6 hk).1)
    rcases eq_or_ne status TWI_REP_START_SENT with h | hne11
    · subst h
      have hact := hST (Or.inr rfl)
      rw [ISR_rep_start_sent]
      refine ⟨i1, i2, ?_, ?_, ?_, ?_⟩
      · intro hc
        rw [show ({ s with TWIInfo := { s.TWIInfo with mode := TWIMode.RepeatedStartSent } }
            : TWIState).lastBusAction = s.lastBusAction from rfl, hact] at hc
        simp at hc
      · intro hc
        rw [show ({ s with TWIInfo := { s.TWIInfo with mode := TWIMode.RepeatedStartSent } }
            : TWIState).lastBusAction = s.lastBusAction from rfl, hact] at hc
        simp at hc
      · intro _
        constructor
        · show s.lastBusAction ≠ some BusAction.sendACK
          rw [hact]
          simp
        · show s.lastBusAction ≠ some BusAction.sendNACK
          rw [hact]
          simp
      · intro hk
        refine ⟨(i6 hk).1, ?_, ?_⟩
        · show s.lastBusAction ≠ some BusAction.sendACK
          rw [hact]
          simp
        · show s.lastBusAction ≠ some BusAction.sendNACK
          rw [hact]
          simp
    rcases eq_or_ne status TWI_NO_RELEVANT_INFO with h | hne12
    · subst h
      exact ⟨i1, i2, i3, i4, i5, i6⟩
    rcases eq_or_ne status TWI_ILLEGAL_START_STOP with h | hne13
    · subst h
      rw [ISR_illegal_start_stop]
      refine ⟨i1, i2, ?_, ?_, ?_, ?_⟩
      · intro hc; simp at hc
      · intro hc; simp at hc
      · intro _; exact ⟨by simp, by simp⟩
      · intro hk; exact ⟨(i6 hk).1, by simp, by simp⟩
    have hid : ISR status s = s := by
      simp [ISR, hne1, hne2, hne3, hne4, hne5, hne6, hne7, hne8, hne9, hne10, hne11,
        hne12, hne13]
    have hsk : stepKind status k = k := by
      simp [stepKind, hne4]
    rw [hid, hsk]
    exact ⟨i1, i2, i3, i4, i5, i6⟩

/-- C6 (amended): after initialization and along every sequence of public
calls with positive lengths — reads only begun while the driver is ready —
and hardware-consistent bus events, both transfer-buffer cursors stay within
their lengths.  The claim's own included scenario, a zero-length read
followed by the address-ACK and data-NACK events, in fact drives the receive
cursor past the receive length (see the counterexample). -/
theorem C6_amended (s : TWIState) (k : Option TransKind) (h : Reachable s k) :
    s.TXBuffIndex ≤ s.TXBuffLen ∧ s.RXBuffIndex ≤ s.RXBuffLen := by
  obtain ⟨i1, i2, -, -, -, -⟩ := reachable_inv s k h
  exact ⟨i1, i2⟩

/-- C6 witness: the invariant at the freshly initialized driver. -/
theorem C6_amended_witness :
    (TWIInit initialState).TXBuffIndex ≤ (TWIInit initialState).TXBuffLen ∧
    (TWIInit initialState).RXBuffIndex ≤ (TWIInit initialState).RXBuffLen :=
  C6_amended (TWIInit initialState) none Reachable.init

/-- C6: the claim as stated is false — it explicitly includes a
`TWIReadData` call with `bytesToRead = 0` followed by address-ACK and
data-NACK events, after which the receive cursor (1) exceeds the receive
length (0). -/
theorem C6_counterexample :
    (ISR TWI_MR_DATA_NACK (ISR TWI_MR_SLAR_ACK (ISR TWI_START_SENT
        (TWIReadData 7 0 0 (TWIInit initialState)).2))).RXBuffLen <
    (ISR TWI_MR_DATA_NACK (ISR TWI_MR_SLAR_ACK (ISR TWI_START_SENT
        (TWIReadData 7 0 0 (TWIInit initialState)).2))).RXBuffIndex := by
  decide

end AVRTWI
